import Mathlib

set_option maxRecDepth 10000

/-!
Shallow embedding of the gitbook-mcp server (`src/index.ts`): the
configuration-precedence resolver, the `GitBookAPIClient` request builder and
error mapping, and the higher-level read operations, together with theorems
settling the specification claims about them.
-/

namespace GitbookMCP

/-- JSON values, as produced by `response.json()`.  Numbers are modelled as
integers (no claim depends on floating-point behaviour). -/
inductive Json where
  | null : Json
  | bool : Bool → Json
  | num : Int → Json
  | str : String → Json
  | arr : List Json → Json
  | obj : List (String × Json) → Json

/-- JavaScript `a || b` on `string | undefined` operands: `undefined` and the
empty string are falsy, everything else is returned as-is. -/
def jsOrStr : Option String → Option String → Option String
  | some s, b => if s = "" then b else some s
  | none, b => b

/-- JavaScript `a || d` where `a : string | undefined` and `d : string`. -/
def jsOrDefault : Option String → String → String
  | some s, d => if s = "" then d else s
  | none, d => d

/-- The per-field shape shared by `envConfig`, `cliConfig` and
`resolvedConfig` in `resolveConfiguration`. -/
structure ConfigFields where
  organizationId : Option String
  spaceId : Option String

/-- `resolveConfiguration` from `src/index.ts`: the resolved configuration is
`cliConfig.organizationId || envConfig.organizationId` and
`cliConfig.spaceId || envConfig.spaceId`.  It is a total function: resolution
never throws.  (The comment above it in the source announces a three-tier
hierarchy `CLI args > Copilot instructions > Environment variables`, but the
body consults only the CLI and environment tiers.) -/
def resolveConfiguration (cliConfig envConfig : ConfigFields) : ConfigFields :=
  { organizationId := jsOrStr cliConfig.organizationId envConfig.organizationId
    spaceId := jsOrStr cliConfig.spaceId envConfig.spaceId }

/-- Modelled from the spec: the documented three-source per-field precedence
"CLI flag → pattern match extracted from the first local file (checked in a
fixed, documented file-search order) that contains a recognizable key →
environment variable → absent".  No code under `src/` implements the
local-instruction-file tier, so this definition follows the spec's words; it
is used only to exhibit where the shipped `resolveConfiguration` diverges
from it. -/
def specResolveField (cli file env : Option String) : Option String :=
  (jsOrStr cli (jsOrStr file env))

/-- The `GitBookAPIClient` fields, set once in the constructor and never
reassigned anywhere in the source. -/
structure GitBookAPIClient where
  apiToken : String
  organizationId : Option String
  defaultSpaceId : Option String

/-- `this.baseURL`. -/
def baseURL : String := "https://api.gitbook.com/v1"

/-- `getDefaultSpaceId()`. -/
def getDefaultSpaceId (c : GitBookAPIClient) : Option String := c.defaultSpaceId

/-- `getDefaultOrganizationId()`. -/
def getDefaultOrganizationId (c : GitBookAPIClient) : Option String :=
  c.organizationId

/-- Errors surfaced by the client: a thrown `Error(message)`, or the rejection
of `response.json()` on a 2xx response whose body is not JSON. -/
inductive JsError where
  | thrown (message : String) : JsError
  | jsonParseFailure : JsError
deriving DecidableEq

/-- The message thrown by `resolveSpaceId` when no space id is available. -/
def noSpaceIdMessage : String :=
  "No space ID provided and no default space configured. Please provide spaceId, use --space-id CLI argument, or add space-id to your configuration file."

/-- The message thrown by `resolveOrganizationId` when no organization id is
available. -/
def noOrganizationIdMessage : String :=
  "No organization ID provided and no default organization configured. Please provide organizationId, use --organization-id CLI argument, or add organization-id to your configuration file."

/-- The message thrown by `getSpaces` when no organization id is available. -/
def listSpacesMessage : String :=
  "Organization ID is required to list spaces. Provide it via parameter or environment variable."

/-- The message thrown by `getCollections` when no organization id is
available. -/
def listCollectionsMessage : String :=
  "Organization ID is required to list collections. Provide it via parameter or environment variable."

/-- `resolveSpaceId`: `explicitSpaceId || this.getDefaultSpaceId()`, throwing
when the result is falsy (`undefined` or the empty string). -/
def resolveSpaceId (c : GitBookAPIClient) (explicitSpaceId : Option String) :
    Except JsError String :=
  match jsOrStr explicitSpaceId (getDefaultSpaceId c) with
  | some s => if s = "" then .error (.thrown noSpaceIdMessage) else .ok s
  | none => .error (.thrown noSpaceIdMessage)

/-- `resolveOrganizationId`: `explicitOrgId || this.getDefaultOrganizationId()`,
throwing when the result is falsy. -/
def resolveOrganizationId (c : GitBookAPIClient) (explicitOrgId : Option String) :
    Except JsError String :=
  match jsOrStr explicitOrgId (getDefaultOrganizationId c) with
  | some s => if s = "" then .error (.thrown noOrganizationIdMessage) else .ok s
  | none => .error (.thrown noOrganizationIdMessage)

/-- JavaScript truthiness of a JSON value (for `options?.body ? ... : ...`). -/
def Json.truthy : Json → Bool
  | .null => false
  | .bool b => b
  | .num n => n != 0
  | .str s => s != ""
  | .arr _ => true
  | .obj _ => true

/-- The `options` parameter of `makeRequest`. -/
structure RequestOptions where
  method : Option String := none
  body : Option Json := none
  headers : Option (List (String × String)) := none

/-- The outbound HTTP request handed to `fetch`. -/
structure RequestOut where
  url : String
  method : String
  headers : List (String × String)
  body : Option Json

/-- JS object spread `{ ...base, ...extra }` on string-valued records: keys of
`base` keep their position but take the value from `extra` when `extra` also
has the key; keys only in `extra` are appended. -/
def spreadOverride (base extra : List (String × String)) : List (String × String) :=
  base.map (fun kv => (kv.1, (extra.lookup kv.1).getD kv.2)) ++
    extra.filter (fun kv => (base.lookup kv.1).isNone)

/-- The `headers` object built in `makeRequest`:
`{ Authorization: Bearer <token>, "Content-Type": "application/json", ...options?.headers }`. -/
def mkHeaders (c : GitBookAPIClient) (extraHeaders : Option (List (String × String))) :
    List (String × String) :=
  spreadOverride
    [("Authorization", "Bearer " ++ c.apiToken),
     ("Content-Type", "application/json")]
    (extraHeaders.getD [])

/-- The request-construction half of `makeRequest`: the URL is
`baseURL + endpoint`, the method defaults to `"GET"` via `||`, and the body is
sent only when `options?.body` is truthy. -/
def buildRequest (c : GitBookAPIClient) (endpoint : String)
    (options : Option RequestOptions) : RequestOut :=
  { url := baseURL ++ endpoint
    method := jsOrDefault (options.bind fun o => o.method) "GET"
    headers := mkHeaders c (options.bind fun o => o.headers)
    body :=
      match options.bind fun o => o.body with
      | some j => if j.truthy then some j else none
      | none => none }

/-- An upstream HTTP response: `body` is `some j` when the body parses as the
JSON value `j`, and `none` when `response.json()` rejects. -/
structure HttpResponse where
  status : Nat
  statusText : String
  body : Option Json

/-- `response.ok`: status in the range 200–299. -/
def HttpResponse.respOk (r : HttpResponse) : Bool :=
  200 ≤ r.status && r.status < 300

/-- JavaScript property access `j[k]` on a parsed JSON value: `some` of the
first binding when `j` is an object containing key `k`, `none` (undefined)
otherwise. -/
def lookupField : Json → String → Option Json
  | .obj fields, k => fields.lookup k
  | _, _ => none

/-- `errorData.error?.message` when it is a string (the body is parsed as
`GitBookErrorResponse`, whose `message` field is declared `string`);
`none` when the chain yields `undefined` or a non-string. -/
def structuredErrorMessage (j : Json) : Option String :=
  match (lookupField j "error").bind (fun e => lookupField e "message") with
  | some (.str s) => some s
  | _ => none

/-- The response-processing half of `makeRequest`: on `response.ok`, return
the parsed JSON body; otherwise throw an `Error` whose message is
`errorData.error?.message || "HTTP <status>: <statusText>"`, using the
fallback whenever the body is not JSON or the structured message is falsy. -/
def handleResponse (response : HttpResponse) : Except JsError Json :=
  if response.respOk then
    match response.body with
    | some j => .ok j
    | none => .error .jsonParseFailure
  else
    let errorMessage := "HTTP " ++ toString response.status ++ ": " ++ response.statusText
    match response.body with
    | some errorData =>
        .error (.thrown (jsOrDefault (structuredErrorMessage errorData) errorMessage))
    | none => .error (.thrown errorMessage)

/-- `makeRequest`, with the network modelled as the given response: the pair
of the outbound request and of the processed result. -/
def makeRequest (c : GitBookAPIClient) (endpoint : String)
    (options : Option RequestOptions) (response : HttpResponse) :
    RequestOut × Except JsError Json :=
  (buildRequest c endpoint options, handleResponse response)

/-- The sixteen uppercase hexadecimal digit characters. -/
def hexDigits : List Char :=
  ['0', '1', '2', '3', '4', '5', '6', '7', '8', '9', 'A', 'B', 'C', 'D', 'E', 'F']

/-- The hexadecimal digit character for a value below 16. -/
def hexDigitChar (n : Nat) : Char := hexDigits.getD n '0'

/-- UTF-8 encoding of a code point, as a list of byte values. -/
def utf8Bytes (n : Nat) : List Nat :=
  if n < 128 then [n]
  else if n < 2048 then [192 + n / 64, 128 + n % 64]
  else if n < 65536 then [224 + n / 4096, 128 + n / 64 % 64, 128 + n % 64]
  else [240 + n / 262144, 128 + n / 4096 % 64, 128 + n / 64 % 64, 128 + n % 64]

/-- A percent-escape `%XY` for one byte, using uppercase hexadecimal digits. -/
def percentEncodeByte (b : Nat) : List Char :=
  ['%', hexDigitChar (b / 16), hexDigitChar (b % 16)]

/-- The characters `encodeURIComponent` leaves unescaped: ASCII letters,
digits, and `- _ . ! ~ * ' ( )`. -/
def uriUnreserved (ch : Char) : Bool :=
  ('A' ≤ ch && ch ≤ 'Z') || ('a' ≤ ch && ch ≤ 'z') || ('0' ≤ ch && ch ≤ '9') ||
    ch == '-' || ch == '_' || ch == '.' || ch == '!' || ch == '~' || ch == '*' ||
    ch == '\'' || ch == '(' || ch == ')'

/-- `encodeURIComponent` on one character: kept verbatim when unreserved,
otherwise every UTF-8 byte is percent-escaped. -/
def encodeURIComponentChar (ch : Char) : List Char :=
  if uriUnreserved ch then [ch] else (utf8Bytes ch.toNat).flatMap percentEncodeByte

/-- JavaScript `encodeURIComponent`. -/
def encodeURIComponent (s : String) : String :=
  String.mk (s.toList.flatMap encodeURIComponentChar)

/-- The characters `URLSearchParams` serialization leaves unescaped
(`application/x-www-form-urlencoded`): ASCII letters, digits, and `* - . _`. -/
def formUnreserved (ch : Char) : Bool :=
  ('A' ≤ ch && ch ≤ 'Z') || ('a' ≤ ch && ch ≤ 'z') || ('0' ≤ ch && ch ≤ '9') ||
    ch == '*' || ch == '-' || ch == '.' || ch == '_'

/-- `application/x-www-form-urlencoded` escaping of one character: space
becomes `+`, unreserved characters are kept, everything else is
percent-escaped per UTF-8 byte. -/
def formEncodeChar (ch : Char) : List Char :=
  if ch = ' ' then ['+']
  else if formUnreserved ch then [ch]
  else (utf8Bytes ch.toNat).flatMap percentEncodeByte

/-- `application/x-www-form-urlencoded` escaping of a string. -/
def formEncode (s : String) : String :=
  String.mk (s.toList.flatMap formEncodeChar)

/-- `URLSearchParams.toString()` for an append-ordered list of pairs. -/
def urlSearchParamsToString (params : List (String × String)) : String :=
  String.intercalate "&" (params.map fun kv => formEncode kv.1 ++ "=" ++ formEncode kv.2)

/-- `getOrganizations`: request `/orgs` and return `response.items`
(`none` models `undefined` when the body has no `items` key). -/
def getOrganizations (c : GitBookAPIClient) (response : HttpResponse) :
    RequestOut × Except JsError (Option Json) :=
  let rr := makeRequest c "/orgs" none response
  (rr.1, rr.2.map fun j => lookupField j "items")

/-- `getSpaces`: `organizationId || this.organizationId`, throwing the
two-mechanism message when the result is falsy, then request
`/orgs/<orgId>/spaces` and return `response.items`. -/
def getSpaces (c : GitBookAPIClient) (organizationId : Option String)
    (response : HttpResponse) : Except JsError (RequestOut × Option Json) :=
  match jsOrStr organizationId c.organizationId with
  | none => .error (.thrown listSpacesMessage)
  | some orgId =>
    if orgId = "" then .error (.thrown listSpacesMessage)
    else
      let rr := makeRequest c ("/orgs/" ++ orgId ++ "/spaces") none response
      rr.2.map fun j => (rr.1, lookupField j "items")

/-- `getSpace`: request `/spaces/<spaceId>` and return the body verbatim. -/
def getSpace (c : GitBookAPIClient) (spaceId : String) (response : HttpResponse) :
    RequestOut × Except JsError Json :=
  makeRequest c ("/spaces/" ++ spaceId) none response

/-- `getSpaceContent`: request `/spaces/<spaceId>/content`. -/
def getSpaceContent (c : GitBookAPIClient) (spaceId : String)
    (response : HttpResponse) : RequestOut × Except JsError Json :=
  makeRequest c ("/spaces/" ++ spaceId ++ "/content") none response

/-- The `options` of `getPageContent`. -/
structure PageContentOptions where
  format : Option String := none
  metadata : Option Bool := none
  computed : Option Bool := none

/-- JavaScript `Boolean.prototype.toString`. -/
def jsBoolToString (b : Bool) : String := if b then "true" else "false"

/-- The query parameters appended by `getPageContent`, in append order. -/
def pageContentParams (options : Option PageContentOptions) : List (String × String) :=
  (match options.bind fun o => o.format with
    | some f => if f = "" then [] else [("format", f)]
    | none => []) ++
  (match options.bind fun o => o.metadata with
    | some b => [("metadata", jsBoolToString b)]
    | none => []) ++
  (match options.bind fun o => o.computed with
    | some b => [("computed", jsBoolToString b)]
    | none => [])

/-- The endpoint built by `getPageContent`: the query string is appended only
when `params.toString()` is nonempty. -/
def getPageContentEndpoint (spaceId pageId : String)
    (options : Option PageContentOptions) : String :=
  let base := "/spaces/" ++ spaceId ++ "/content/page/" ++ pageId
  let q := urlSearchParamsToString (pageContentParams options)
  if q = "" then base else base ++ "?" ++ q

/-- `getPageContent`. -/
def getPageContent (c : GitBookAPIClient) (spaceId pageId : String)
    (options : Option PageContentOptions) (response : HttpResponse) :
    RequestOut × Except JsError Json :=
  makeRequest c (getPageContentEndpoint spaceId pageId options) none response

/-- `getPageByPath`: the page path is encoded with `encodeURIComponent` and
templated into `/spaces/<spaceId>/content/path/<encodedPath>`. -/
def getPageByPath (c : GitBookAPIClient) (spaceId pagePath : String)
    (response : HttpResponse) : RequestOut × Except JsError Json :=
  let encodedPath := encodeURIComponent pagePath
  makeRequest c ("/spaces/" ++ spaceId ++ "/content/path/" ++ encodedPath) none response

/-- `searchContent`: `/spaces/<spaceId>/search?<URLSearchParams({query})>`. -/
def searchContent (c : GitBookAPIClient) (spaceId query : String)
    (response : HttpResponse) : RequestOut × Except JsError Json :=
  makeRequest c
    ("/spaces/" ++ spaceId ++ "/search?" ++ urlSearchParamsToString [("query", query)])
    none response

/-- `getSpaceFiles`: request `/spaces/<spaceId>/files`, return `response.items`. -/
def getSpaceFiles (c : GitBookAPIClient) (spaceId : String) (response : HttpResponse) :
    RequestOut × Except JsError (Option Json) :=
  let rr := makeRequest c ("/spaces/" ++ spaceId ++ "/files") none response
  (rr.1, rr.2.map fun j => lookupField j "items")

/-- `getFile`: request `/spaces/<spaceId>/files/<fileId>`. -/
def getFile (c : GitBookAPIClient) (spaceId fileId : String) (response : HttpResponse) :
    RequestOut × Except JsError Json :=
  makeRequest c ("/spaces/" ++ spaceId ++ "/files/" ++ fileId) none response

/-- `getCollections`: same guard shape as `getSpaces`, endpoint
`/orgs/<orgId>/collections`. -/
def getCollections (c : GitBookAPIClient) (organizationId : Option String)
    (response : HttpResponse) : Except JsError (RequestOut × Option Json) :=
  match jsOrStr organizationId c.organizationId with
  | none => .error (.thrown listCollectionsMessage)
  | some orgId =>
    if orgId = "" then .error (.thrown listCollectionsMessage)
    else
      let rr := makeRequest c ("/orgs/" ++ orgId ++ "/collections") none response
      rr.2.map fun j => (rr.1, lookupField j "items")

/-- `getCollection`: request `/collections/<collectionId>`. -/
def getCollection (c : GitBookAPIClient) (collectionId : String)
    (response : HttpResponse) : RequestOut × Except JsError Json :=
  makeRequest c ("/collections/" ++ collectionId) none response

/-- `getCollectionSpaces`: request `/collections/<collectionId>/spaces`,
return `response.items`. -/
def getCollectionSpaces (c : GitBookAPIClient) (collectionId : String)
    (response : HttpResponse) : RequestOut × Except JsError (Option Json) :=
  let rr := makeRequest c ("/collections/" ++ collectionId ++ "/spaces") none response
  (rr.1, rr.2.map fun j => lookupField j "items")

/-- The tool-level operations registered on the MCP server, with their
arguments.  Tools whose `spaceId` is optional first run it through
`resolveSpaceId`, `list_collections` runs its argument through
`resolveOrganizationId`, and `list_spaces` passes its argument straight to
`getSpaces`. -/
inductive Operation where
  | listOrganizations : Operation
  | listSpaces (organizationId : Option String) : Operation
  | getSpaceTool (spaceId : String) : Operation
  | getSpaceContentTool (spaceId : Option String) : Operation
  | getPageContentTool (spaceId : Option String) (pageId : String)
      (options : Option PageContentOptions) : Operation
  | getPageByPathTool (spaceId : Option String) (pagePath : String) : Operation
  | searchContentTool (spaceId : Option String) (query : String) : Operation
  | getSpaceFilesTool (spaceId : Option String) : Operation
  | getFileTool (spaceId : Option String) (fileId : String) : Operation
  | listCollections (organizationId : Option String) : Operation
  | getCollectionTool (collectionId : String) : Operation
  | getCollectionSpacesTool (collectionId : String) : Operation

/-- One tool invocation against the client, with the network modelled by the
given response.  The second component of the result is the client state after
the call; every branch returns `c` itself because no method of
`GitBookAPIClient` assigns to `this.apiToken`, `this.organizationId` or
`this.defaultSpaceId` — the constructor is the only writer. -/
def runOperation (c : GitBookAPIClient) (op : Operation) (response : HttpResponse) :
    Except JsError (Option Json) × GitBookAPIClient :=
  match op with
  | .listOrganizations => ((getOrganizations c response).2, c)
  | .listSpaces organizationId =>
      (match getSpaces c organizationId response with
        | .ok p => (.ok p.2, c)
        | .error e => (.error e, c))
  | .getSpaceTool spaceId => ((getSpace c spaceId response).2.map some, c)
  | .getSpaceContentTool spaceId =>
      (match resolveSpaceId c spaceId with
        | .ok s => ((getSpaceContent c s response).2.map some, c)
        | .error e => (.error e, c))
  | .getPageContentTool spaceId pageId options =>
      (match resolveSpaceId c spaceId with
        | .ok s => ((getPageContent c s pageId options response).2.map some, c)
        | .error e => (.error e, c))
  | .getPageByPathTool spaceId pagePath =>
      (match resolveSpaceId c spaceId with
        | .ok s => ((getPageByPath c s pagePath response).2.map some, c)
        | .error e => (.error e, c))
  | .searchContentTool spaceId query =>
      (match resolveSpaceId c spaceId with
        | .ok s => ((searchContent c s query response).2.map some, c)
        | .error e => (.error e, c))
  | .getSpaceFilesTool spaceId =>
      (match resolveSpaceId c spaceId with
        | .ok s => ((getSpaceFiles c s response).2, c)
        | .error e => (.error e, c))
  | .getFileTool spaceId fileId =>
      (match resolveSpaceId c spaceId with
        | .ok s => ((getFile c s fileId response).2.map some, c)
        | .error e => (.error e, c))
  | .listCollections organizationId =>
      (match resolveOrganizationId c organizationId with
        | .ok orgId =>
          (match getCollections c (some orgId) response with
            | .ok p => (.ok p.2, c)
            | .error e => (.error e, c))
        | .error e => (.error e, c))
  | .getCollectionTool collectionId => ((getCollection c collectionId response).2.map some, c)
  | .getCollectionSpacesTool collectionId => ((getCollectionSpaces c collectionId response).2, c)

/-- Helper: every hexadecimal digit character differs from `'/'`. -/
theorem hexDigitChar_ne_slash (n : Nat) : hexDigitChar n ≠ '/' := by
  by_cases h : n < 16
  · revert h
    revert n
    decide
  · unfold hexDigitChar
    rw [List.getD_eq_default]
    · decide
    · simp only [hexDigits, List.length]
      omega

/-- Helper: percent-escapes never contain `'/'`. -/
theorem percentEncodeByte_ne_slash (b : Nat) (ch : Char)
    (h : ch ∈ percentEncodeByte b) : ch ≠ '/' := by
  simp only [percentEncodeByte, List.mem_cons, List.mem_singleton,
    List.not_mem_nil, or_false] at h
  rcases h with h | h | h
  · subst h
    decide
  · subst h
    exact hexDigitChar_ne_slash _
  · subst h
    exact hexDigitChar_ne_slash _

/-- Helper: the `encodeURIComponent` encoding of a single character never
contains `'/'`. -/
theorem encodeURIComponentChar_ne_slash (c ch : Char)
    (h : ch ∈ encodeURIComponentChar c) : ch ≠ '/' := by
  unfold encodeURIComponentChar at h
  by_cases hu : uriUnreserved c
  · rw [if_pos hu] at h
    simp only [List.mem_singleton] at h
    subst h
    intro hc
    subst hc
    simp only [uriUnreserved] at hu
    revert hu
    decide
  · rw [if_neg hu] at h
    rcases List.mem_flatMap.mp h with ⟨b, _, hb⟩
    exact percentEncodeByte_ne_slash b ch hb

/-- Helper: `encodeURIComponent` output never contains `'/'`; an encoded page
path therefore occupies a single URL path segment. -/
theorem encodeURIComponent_no_slash (s : String) :
    ¬ '/' ∈ (encodeURIComponent s).toList := by
  intro h
  have hl : (encodeURIComponent s).toList = s.toList.flatMap encodeURIComponentChar := rfl
  rw [hl] at h
  rcases List.mem_flatMap.mp h with ⟨c, _, hc⟩
  exact encodeURIComponentChar_ne_slash c '/' hc rfl

/-- Claim C1: the claimed three-tier precedence (CLI flag, then local
instruction file, then environment variable) does not hold in the shipped
`resolveConfiguration`, which consults only the CLI flag and the environment
variable, even though the comment above it and the README document the
instruction-file tier.  With the CLI flag absent, a local file carrying
`org_file` and the environment carrying `org_env`, the documented resolver
(`specResolveField`, modelled from the spec) yields the file value while the
shipped code yields the environment value. -/
theorem c1_instruction_file_ignored :
    specResolveField none (some "org_file") (some "org_env") = some "org_file" ∧
    (resolveConfiguration ⟨none, none⟩ ⟨some "org_env", none⟩).organizationId =
      some "org_env" ∧
    (some "org_env" : Option String) ≠ some "org_file" :=
  ⟨rfl, rfl, by decide⟩

/-- Claim C2 counterexample: a 404 response whose body is the structured error
object `{error: {code: 404, message: "Space not found"}}` produces the thrown
message `"Space not found"`, not `"404 - Space not found"`: the code is never
prepended to the message. -/
theorem c2_counterexample :
    handleResponse
      ⟨404, "Not Found",
        some (.obj [("error", .obj [("code", .num 404), ("message", .str "Space not found")])])⟩ =
      .error (.thrown "Space not found") ∧
    "Space not found" ≠ "404 - Space not found" :=
  ⟨rfl, by decide⟩

/-- Claim C2 (amended): for every non-2xx response whose body is the
structured error object `{error: {code, message}}` with a non-empty message,
the thrown error message is exactly `<message>` — the structured message
alone, without the code. -/
theorem c2_structured_error_message (status : Nat) (statusText : String)
    (code : Int) (msg : String) (hstatus : ¬ (200 ≤ status ∧ status < 300))
    (hmsg : msg ≠ "") :
    handleResponse
      ⟨status, statusText,
        some (.obj [("error", .obj [("code", .num code), ("message", .str msg)])])⟩ =
      .error (.thrown msg) := by
  have hok :
      ¬ ((HttpResponse.mk status statusText
          (some (.obj [("error", .obj [("code", .num code), ("message", .str msg)])]))).respOk
        = true) := by
    simp only [HttpResponse.respOk, Bool.and_eq_true, decide_eq_true_eq]
    exact hstatus
  unfold handleResponse
  rw [if_neg hok]
  show Except.error (JsError.thrown
    (jsOrDefault
      (structuredErrorMessage
        (.obj [("error", .obj [("code", .num code), ("message", .str msg)])]))
      ("HTTP " ++ toString status ++ ": " ++ statusText))) = _
  have hsem :
      structuredErrorMessage
        (.obj [("error", .obj [("code", .num code), ("message", .str msg)])]) = some msg := rfl
  rw [hsem]
  show Except.error (JsError.thrown
    (if msg = "" then "HTTP " ++ toString status ++ ": " ++ statusText else msg)) = _
  rw [if_neg hmsg]

/-- Claim C2 witness: the amended statement at a concrete non-2xx structured
response. -/
theorem c2_structured_error_message_witness :
    handleResponse
      ⟨403, "Forbidden",
        some (.obj [("error", .obj [("code", .num 403), ("message", .str "Insufficient permissions")])])⟩ =
      .error (.thrown "Insufficient permissions") :=
  c2_structured_error_message 403 "Forbidden" 403 "Insufficient permissions"
    (by omega) (by decide)

/-- Claim C3 counterexample: a 500 response with a non-JSON body produces the
thrown message `"HTTP 500: Internal Server Error"`, not
`"500 Internal Server Error"`: the fallback message carries an `HTTP ` prefix
and a colon after the status. -/
theorem c3_counterexample :
    handleResponse ⟨500, "Internal Server Error", none⟩ =
      .error (.thrown "HTTP 500: Internal Server Error") ∧
    "HTTP 500: Internal Server Error" ≠ "500 Internal Server Error" :=
  ⟨rfl, by decide⟩

/-- Claim C3 (amended): for every non-2xx response whose body does not parse
as JSON, the thrown error message is exactly `"HTTP <status>: <statusText>"`. -/
theorem c3_fallback_error_message (status : Nat) (statusText : String)
    (hstatus : ¬ (200 ≤ status ∧ status < 300)) :
    handleResponse ⟨status, statusText, none⟩ =
      .error (.thrown ("HTTP " ++ toString status ++ ": " ++ statusText)) := by
  have hok : ¬ ((HttpResponse.mk status statusText none).respOk = true) := by
    simp only [HttpResponse.respOk, Bool.and_eq_true, decide_eq_true_eq]
    exact hstatus
  unfold handleResponse
  rw [if_neg hok]

/-- Claim C3 witness: the amended statement at a concrete non-2xx non-JSON
response. -/
theorem c3_fallback_error_message_witness :
    handleResponse ⟨502, "Bad Gateway", none⟩ =
      .error (.thrown ("HTTP " ++ toString 502 ++ ": " ++ "Bad Gateway")) :=
  c3_fallback_error_message 502 "Bad Gateway" (by omega)

/-- Claim C4: with the CLI flag `--organization-id=org_1` and the environment
variable `GITBOOK_ORGANIZATION_ID=org_2` both set, the resolved organization
id is `org_1`; calling `getSpaces` on the client built from that configuration
with no explicit organization argument issues a request to
`<baseURL>/orgs/org_1/spaces` and returns the `items` array of the
`{items: [...]}` response body verbatim. -/
theorem c4_end_to_end_org_precedence (token : String) (l : List Json) :
    (resolveConfiguration ⟨some "org_1", none⟩ ⟨some "org_2", none⟩).organizationId =
      some "org_1" ∧
    ∃ req : RequestOut,
      getSpaces
        ⟨token,
         (resolveConfiguration ⟨some "org_1", none⟩ ⟨some "org_2", none⟩).organizationId,
         (resolveConfiguration ⟨some "org_1", none⟩ ⟨some "org_2", none⟩).spaceId⟩
        none ⟨200, "OK", some (.obj [("items", .arr l)])⟩ =
        .ok (req, some (.arr l)) ∧
      req.url = baseURL ++ "/orgs/org_1/spaces" :=
  ⟨rfl, ⟨_, rfl, rfl⟩⟩

/-- Claim C5 counterexample: the space-listing operation accepts an optional
organization id, yet when invoked with no argument on a client with no
resolved default it throws a message that does not name the CLI flag
(`--organization-id`): only the parameter and the environment variable are
named, so not every such operation names all three supply mechanisms. -/
theorem c5_counterexample :
    getSpaces ⟨"token", none, none⟩ none ⟨200, "OK", none⟩ =
      .error (.thrown listSpacesMessage) ∧
    ¬ ("--organization-id".toList <:+: listSpacesMessage.toList) :=
  ⟨rfl, by decide⟩

/-- Claim C5 (amended): operations that route their optional identifier
through `resolveSpaceId` or `resolveOrganizationId` fail at first use with a
message naming the explicit parameter, the CLI flag and the configuration
file; the space-listing operation bypasses `resolveOrganizationId` and its
failure message names only the parameter and the environment variable.
Resolution itself (`resolveConfiguration`) is a total function and never
throws. -/
theorem c5_missing_id_messages (token : String) (response : HttpResponse) :
    (resolveSpaceId ⟨token, none, none⟩ none = .error (.thrown noSpaceIdMessage) ∧
      "spaceId".toList <:+: noSpaceIdMessage.toList ∧
      "--space-id".toList <:+: noSpaceIdMessage.toList ∧
      "configuration file".toList <:+: noSpaceIdMessage.toList) ∧
    (resolveOrganizationId ⟨token, none, none⟩ none =
        .error (.thrown noOrganizationIdMessage) ∧
      "organizationId".toList <:+: noOrganizationIdMessage.toList ∧
      "--organization-id".toList <:+: noOrganizationIdMessage.toList ∧
      "configuration file".toList <:+: noOrganizationIdMessage.toList) ∧
    (getSpaces ⟨token, none, none⟩ none response = .error (.thrown listSpacesMessage) ∧
      "parameter".toList <:+: listSpacesMessage.toList ∧
      "environment variable".toList <:+: listSpacesMessage.toList ∧
      ¬ "--organization-id".toList <:+: listSpacesMessage.toList) :=
  ⟨⟨rfl, by decide, by decide, by decide⟩,
   ⟨rfl, by decide, by decide, by decide⟩,
   ⟨rfl, by decide, by decide, by decide⟩⟩

/-- Claim C6: every 2xx response whose body parses as JSON passes through
unmodified: `makeRequest` returns the parsed body itself, and so does the
space-reading operation built on it — no validation, transformation or
derived computation is applied. -/
theorem c6_success_passthrough (c : GitBookAPIClient) (endpoint : String)
    (options : Option RequestOptions) (spaceId : String) (response : HttpResponse)
    (j : Json) (h2xx : 200 ≤ response.status ∧ response.status < 300)
    (hbody : response.body = some j) :
    (makeRequest c endpoint options response).2 = .ok j ∧
    (getSpace c spaceId response).2 = .ok j := by
  have hok : response.respOk = true := by
    simp only [HttpResponse.respOk, Bool.and_eq_true, decide_eq_true_eq]
    exact h2xx
  have h : handleResponse response = .ok j := by
    unfold handleResponse
    rw [if_pos hok, hbody]
  exact ⟨h, h⟩

/-- Claim C6 witness: a concrete 2xx response with an arbitrary JSON object
body is returned verbatim. -/
theorem c6_success_passthrough_witness :
    (makeRequest ⟨"tok", none, none⟩ "/orgs" none
        ⟨200, "OK", some (.obj [("a", .num 1), ("b", .arr [.null, .bool true])])⟩).2 =
      .ok (.obj [("a", .num 1), ("b", .arr [.null, .bool true])]) ∧
    (getSpace ⟨"tok", none, none⟩ "space_1"
        ⟨200, "OK", some (.obj [("a", .num 1), ("b", .arr [.null, .bool true])])⟩).2 =
      .ok (.obj [("a", .num 1), ("b", .arr [.null, .bool true])]) :=
  c6_success_passthrough ⟨"tok", none, none⟩ "/orgs" none "space_1"
    ⟨200, "OK", some (.obj [("a", .num 1), ("b", .arr [.null, .bool true])])⟩
    (.obj [("a", .num 1), ("b", .arr [.null, .bool true])]) (by decide) rfl

/-- Claim C7: every request built by the client (no call site supplies extra
headers) carries an `Authorization` header equal to `"Bearer "` followed by
the configured token and a `Content-Type` header equal to
`"application/json"`, whatever the endpoint, method or body. -/
theorem c7_headers_always_attached (c : GitBookAPIClient) (endpoint : String)
    (options : Option RequestOptions) (response : HttpResponse)
    (hh : (options.bind fun o => o.headers) = none) :
    ((makeRequest c endpoint options response).1.headers.lookup "Authorization" =
      some ("Bearer " ++ c.apiToken)) ∧
    ((makeRequest c endpoint options response).1.headers.lookup "Content-Type" =
      some "application/json") := by
  unfold makeRequest buildRequest mkHeaders
  rw [hh]
  exact ⟨rfl, rfl⟩

/-- Claim C7 witness: the header property at a concrete request: a `POST` on
`/orgs` with a JSON object body and no extra headers. -/
theorem c7_headers_always_attached_witness :
    ((makeRequest ⟨"tok", none, none⟩ "/orgs"
        (some { method := some "POST", body := some (.obj [("k", .str "v")]) })
        ⟨200, "OK", none⟩).1.headers.lookup "Authorization" =
      some ("Bearer " ++ "tok")) ∧
    ((makeRequest ⟨"tok", none, none⟩ "/orgs"
        (some { method := some "POST", body := some (.obj [("k", .str "v")]) })
        ⟨200, "OK", none⟩).1.headers.lookup "Content-Type" =
      some "application/json") :=
  c7_headers_always_attached ⟨"tok", none, none⟩ "/orgs"
    (some { method := some "POST", body := some (.obj [("k", .str "v")]) })
    ⟨200, "OK", none⟩ rfl

/-- Claim C8: the effective configuration (`apiToken`, `organizationId`,
`defaultSpaceId`) is immutable after construction: running any tool operation,
against any response and whether it succeeds or fails, leaves the client state
unchanged — no method of `GitBookAPIClient` assigns to its fields. -/
theorem c8_configuration_immutable (c : GitBookAPIClient) (op : Operation)
    (response : HttpResponse) :
    (runOperation c op response).2 = c := by
  cases op <;> simp only [runOperation] <;> (repeat' split) <;> rfl

/-- Claim C9 counterexample: with both CLI flags supplied as the empty string
and both environment variables set (to the empty string), the resolved
organization id and the resolved space id are both the empty string —
refuting "the resolved value is never the empty string when the environment
variable is set" for each field. -/
theorem c9_counterexample :
    (resolveConfiguration ⟨some "", some ""⟩ ⟨some "", some ""⟩).organizationId =
      some "" ∧
    (resolveConfiguration ⟨some "", some ""⟩ ⟨some "", some ""⟩).spaceId = some "" :=
  ⟨rfl, rfl⟩

/-- Claim C9 (amended): for each field independently, an empty-string CLI flag
is treated as absent — the merge uses JavaScript truthiness, so the resolver
falls back to the environment variable for that field — and the resolved
value is never the empty string when that field's environment variable is set
to a non-empty value. -/
theorem c9_empty_cli_falls_back (cliOrg cliSpace envOrg envSpace : Option String) :
    ((resolveConfiguration ⟨some "", cliSpace⟩ ⟨envOrg, envSpace⟩).organizationId =
        envOrg ∧
      ∀ s, envOrg = some s → s ≠ "" →
        (resolveConfiguration ⟨some "", cliSpace⟩ ⟨envOrg, envSpace⟩).organizationId ≠
          some "") ∧
    ((resolveConfiguration ⟨cliOrg, some ""⟩ ⟨envOrg, envSpace⟩).spaceId =
        envSpace ∧
      ∀ s, envSpace = some s → s ≠ "" →
        (resolveConfiguration ⟨cliOrg, some ""⟩ ⟨envOrg, envSpace⟩).spaceId ≠
          some "") := by
  refine ⟨⟨rfl, ?_⟩, ⟨rfl, ?_⟩⟩
  · intro s hs hne h
    rw [hs] at h
    exact hne (Option.some.inj h)
  · intro s hs hne h
    rw [hs] at h
    exact hne (Option.some.inj h)

/-- Claim C9 witness: the amended statement at concrete inputs: an empty CLI
organization flag with environment variable `org_env`, and an empty CLI space
flag with environment variable `space_env`. -/
theorem c9_empty_cli_falls_back_witness :
    (resolveConfiguration ⟨some "", none⟩ ⟨some "org_env", none⟩).organizationId =
      some "org_env" ∧
    (resolveConfiguration ⟨some "", none⟩ ⟨some "org_env", none⟩).organizationId ≠
      some "" ∧
    (resolveConfiguration ⟨none, some ""⟩
        ⟨some "org_env", some "space_env"⟩).spaceId = some "space_env" ∧
    (resolveConfiguration ⟨none, some ""⟩
        ⟨some "org_env", some "space_env"⟩).spaceId ≠ some "" :=
  ⟨(c9_empty_cli_falls_back none none (some "org_env") none).1.1,
   (c9_empty_cli_falls_back none none (some "org_env") none).1.2 "org_env" rfl
     (by decide),
   (c9_empty_cli_falls_back none none (some "org_env") (some "space_env")).2.1,
   (c9_empty_cli_falls_back none none (some "org_env") (some "space_env")).2.2
     "space_env" rfl (by decide)⟩

/-- Claim C10: `getPageByPath` percent-encodes the whole page path with
`encodeURIComponent` before templating it into the endpoint, so the request
URL is `<baseURL>/spaces/<spaceId>/content/path/<encodeURIComponent(pagePath)>`,
and the encoded path contains no `/`: a page path holding slashes or reserved
characters occupies a single URL path segment. -/
theorem c10_page_path_single_segment (c : GitBookAPIClient)
    (spaceId pagePath : String) (response : HttpResponse) :
    (getPageByPath c spaceId pagePath response).1.url =
      baseURL ++ ("/spaces/" ++ spaceId ++ "/content/path/" ++ encodeURIComponent pagePath) ∧
    ¬ '/' ∈ (encodeURIComponent pagePath).toList :=
  ⟨rfl, encodeURIComponent_no_slash pagePath⟩

end GitbookMCP
